import Mathlib

/-!
# Verification of the gophermail MIME composer and SMTP sender

A shallow embedding of the `gophermail` Go package.  The SMTP driving code
is transcribed from `smtp.go`; the message renderer (`Message.Bytes`) is not
part of the provided sources, so it is modelled from the specification's
structure-selection algorithm, per-part encoding rules and header-assembly
rules.
-/

namespace Gophermail

/-- An `Address` value: display name plus mailbox string (`net/mail.Address`). -/
structure Address where
  Name : String
  Address : String
deriving DecidableEq, Repr

/-- Modelled from the spec: an `Attachment` has a suggested filename, a MIME
content type and a byte-producing data stream; the stream is modelled by the
byte sequence it yields when read to exhaustion. -/
structure Attachment where
  Name : String
  ContentType : String
  Data : List Nat
deriving DecidableEq, Repr

/-- Modelled from the spec: the `Message` value.  `Body` and `HTMLBody` are
optional strings (absence is distinct from the empty string); `Headers` maps
a header name to the ordered sequence of its values; `From` is required but
may be unset, which is a configuration error at render time. -/
structure Message where
  From : Option Address := none
  To : List Address := []
  Cc : List Address := []
  Bcc : List Address := []
  Subject : String := ""
  Body : Option String := none
  HTMLBody : Option String := none
  Attachments : List Attachment := []
  Headers : List (String × List String) := []
deriving DecidableEq, Repr

/-- The UTF-8 encoding of a single code point, as natural numbers. -/
def charUTF8 (c : Char) : List Nat :=
  let n := c.toNat
  if n < 128 then [n]
  else if n < 2048 then [192 + n / 64, 128 + n % 64]
  else if n < 65536 then [224 + n / 4096, 128 + n / 64 % 64, 128 + n % 64]
  else [240 + n / 262144, 128 + n / 4096 % 64, 128 + n / 64 % 64, 128 + n % 64]

/-- The UTF-8 byte sequence of a string, as natural numbers. -/
def strBytes (s : String) : List Nat :=
  s.data.flatMap charUTF8

/-- The base64 alphabet. -/
def base64Alphabet : List Char :=
  "ABCDEFGHIJKLMNOPQRSTUVWXYZabcdefghijklmnopqrstuvwxyz0123456789+/".toList

/-- The base64 digit for a 6-bit value. -/
def b64digit (n : Nat) : Char :=
  base64Alphabet.getD n 'A'

/-- Standard base64 encoding (with `=` padding) of a byte sequence. -/
def base64Encode : List Nat → String
  | [] => ""
  | [a] =>
      String.mk [b64digit (a / 4), b64digit (a % 4 * 16), '=', '=']
  | [a, b] =>
      String.mk [b64digit (a / 4), b64digit (a % 4 * 16 + b / 16),
                 b64digit (b % 16 * 4), '=']
  | a :: b :: c :: rest =>
      String.mk [b64digit (a / 4), b64digit (a % 4 * 16 + b / 16),
                 b64digit (b % 16 * 4 + c / 64), b64digit (c % 64)]
        ++ base64Encode rest

/-- A hexadecimal digit (uppercase), for quoted-printable escapes. -/
def hexDigit (n : Nat) : Char :=
  "0123456789ABCDEF".toList.getD n '0'

/-- Modelled from the spec: quoted-printable encoding of a byte.  Printable
ASCII other than `=` (and the tab) passes through; every other byte becomes
an `=XX` escape. -/
def qpEncodeByte (b : Nat) : List Char :=
  if b = 9 ∨ (32 ≤ b ∧ b ≤ 126 ∧ b ≠ 61) then
    [Char.ofNat b]
  else
    ['=', hexDigit (b / 16), hexDigit (b % 16)]

/-- Modelled from the spec: quoted-printable encoding of a string's UTF-8
bytes. -/
def qpEncode (s : String) : String :=
  String.mk ((strBytes s).flatMap qpEncodeByte)

/-- A rendered MIME part: either a leaf part with a content type, extra
headers, a transfer encoding and an encoded payload, or a multipart
container with a boundary token and an ordered list of children. -/
inductive Part where
  | leaf (contentType : String) (extraHeaders : List (String × String))
      (encoding : String) (payload : String)
  | multi (contentType : String) (boundary : String) (children : List Part)

/-- Modelled from the spec: the rendered text/plain part — content type
`text/plain; charset=utf-8`, quoted-printable transfer encoding, payload the
quoted-printable encoding of the body. -/
def plainPart (body : String) : Part :=
  Part.leaf "text/plain; charset=utf-8" [] "quoted-printable" (qpEncode body)

/-- Modelled from the spec: the rendered text/html part — content type
`text/html; charset=utf-8`, base64 transfer encoding, payload the base64 of
the HTML body. -/
def htmlPart (body : String) : Part :=
  Part.leaf "text/html; charset=utf-8" [] "base64" (base64Encode (strBytes body))

/-- Modelled from the spec: the rendered part of one attachment — the
attachment's own content type, a `Content-Disposition: attachment` header
carrying the filename, base64 transfer encoding, and payload the base64 of
the full bytes read from the attachment's data stream. -/
def attachmentPart (a : Attachment) : Part :=
  Part.leaf a.ContentType
    [("Content-Disposition", "attachment; filename=\x22" ++ a.Name ++ "\x22")]
    "base64" (base64Encode a.Data)

/-- Modelled from the spec: the structure-selection step for the body part.
Both bodies set gives an inner multipart/alternative with exactly two
children, plain first then HTML; only HTML gives a single HTML part;
otherwise (only plain, or neither) a single plain-text part whose content is
the body, possibly empty. -/
def bodyPart (m : Message) (altBoundary : String) : Part :=
  match m.Body, m.HTMLBody with
  | some p, some h =>
      Part.multi "multipart/alternative" altBoundary [plainPart p, htmlPart h]
  | none, some h => htmlPart h
  | some p, none => plainPart p
  | none, none => plainPart ""

/-- Modelled from the spec: the structure-selection step for the top level.
With no attachments the body part itself is the top-level content; with
attachments the top level is multipart/mixed whose first child is the body
part, followed by one part per attachment in order. -/
def topPart (m : Message) (altBoundary mixedBoundary : String) : Part :=
  if m.Attachments.isEmpty then bodyPart m altBoundary
  else
    Part.multi "multipart/mixed" mixedBoundary
      (bodyPart m altBoundary :: m.Attachments.map attachmentPart)

/-- The first value list associated with a header name. -/
def lookupHeader (hs : List (String × List String)) (name : String) :
    Option (List String) :=
  (hs.find? (·.1 = name)).map (·.2)

/-- Modelled from the spec: Date resolution — the `Date` entry of `Headers`
is used verbatim when present, else the current UTC time of the render call
(passed in, already formatted) is synthesized. -/
def dateValues (m : Message) (now : String) : List String :=
  match lookupHeader m.Headers "Date" with
  | some vs => vs
  | none => [now]

/-- The display form of an address, `Name <mailbox>`. -/
def formatAddress (a : Address) : String :=
  a.Name ++ " <" ++ a.Address ++ ">"

/-- A comma-joined display list of addresses. -/
def formatAddressList (as : List Address) : String :=
  String.intercalate ", " (as.map formatAddress)

/-- The top-level Content-Type header value of a part, with the boundary
parameter when the part is multipart. -/
def partContentType : Part → String
  | Part.leaf ct _ _ _ => ct
  | Part.multi ct b _ => ct ++ "; boundary=\x22" ++ b ++ "\x22"

/-- Modelled from the spec: top-level header assembly — From, To (joined
display list), Cc only if non-empty, Subject, MIME-Version, Date,
Content-Type (with boundary parameter when multipart), then the remaining
`Headers` entries verbatim in order (Bcc never appears; the `Date` entry was
already consumed by Date resolution). -/
def topHeaders (m : Message) (f : Address) (now : String) (content : Part) :
    List (String × String) :=
  [("From", formatAddress f), ("To", formatAddressList m.To)]
    ++ (if m.Cc.isEmpty then [] else [("Cc", formatAddressList m.Cc)])
    ++ [("Subject", m.Subject), ("MIME-Version", "1.0")]
    ++ (dateValues m now).map (fun v => ("Date", v))
    ++ [("Content-Type", partContentType content)]
    ++ (m.Headers.filter (¬ ·.1 = "Date")).flatMap
        (fun e => e.2.map (fun v => (e.1, v)))

/-- A fully rendered message: ordered top-level header lines plus the MIME
content tree. -/
structure Rendered where
  headers : List (String × String)
  content : Part

/-- Render-time errors. -/
inductive RenderError where
  | MissingSender
deriving DecidableEq, Repr

/-- Modelled from the spec: `Render(message)` / `Message.Bytes` — fails with
`MissingSender` when From is unset, otherwise assembles the top-level
headers and the MIME content tree.  The multipart boundary tokens and the
formatted current UTC time are passed in as parameters (they are the
renderer's only non-deterministic inputs). -/
def render (m : Message) (altBoundary mixedBoundary : String) (now : String) :
    Except RenderError Rendered :=
  match m.From with
  | none => .error .MissingSender
  | some f =>
      let content := topPart m altBoundary mixedBoundary
      .ok { headers := topHeaders m f now content, content := content }

/-- The ordered values of the Date header lines of a rendered message. -/
def dateHeaders (r : Rendered) : List String :=
  (r.headers.filter (fun x => x.1 = "Date")).map (·.2)

/-! ## The SMTP layer, transcribed from `smtp.go`

The `net/smtp` client is an external collaborator; its behaviour is modelled
by a `Server` oracle saying which protocol step succeeds, and a send is
modelled by the ordered trace of protocol commands it issues together with
the error it returns. -/

/-- A TLS configuration value (`*tls.Config`), abstract. -/
structure TLSConfig where
  ident : Nat
deriving DecidableEq, Repr

/-- The default TLS configuration the stdlib `smtp.SendMail` builds itself
when upgrading (`&tls.Config{ServerName: ...}`). -/
def defaultTLSConfig : TLSConfig := ⟨0⟩

/-- An authentication credential (`smtp.Auth`), abstract; `none` models a
nil credential. -/
structure AuthCred where
  ident : Nat
deriving DecidableEq, Repr

/-- The oracle for one SMTP server conversation: which step succeeds, which
extensions are advertised, and which recipients are accepted. -/
structure Server where
  dialOk : Bool := true
  starttlsAdvertised : Bool := false
  starttlsOk : Bool := true
  authAdvertised : Bool := false
  authOk : Bool := true
  mailOk : Bool := true
  rcptOk : String → Bool := fun _ => true
  dataOk : Bool := true
  writeOk : Bool := true
  closeDataOk : Bool := true
  quitOk : Bool := true

/-- One observable protocol action of the client, in issue order. -/
inductive SmtpEvent where
  | dial (addr : String)
  | extensionQuery (name : String)
  | starttls (cfg : TLSConfig)
  | auth (cred : AuthCred)
  | mail (sender : String)
  | rcpt (addr : String)
  | data
  | write (msg : Rendered)
  | closeData
  | quit
  | closeConn

/-- The error a send returns, classified by the protocol step that failed. -/
inductive SendError where
  | renderError (e : RenderError)
  | connectionError
  | tlsUpgradeFailed
  | authFailed
  | senderRejected
  | recipientRejected (addr : String)
  | dataRejected
  | writeFailed
  | closeFailed
  | quitFailed
deriving DecidableEq, Repr

/-- The STARTTLS step of the session (smtp.go:86-90): query the extension;
if advertised, upgrade with the supplied configuration, aborting on
failure. -/
def tlsPhase (srv : Server) (cfg : TLSConfig) :
    List SmtpEvent × Option SendError :=
  if srv.starttlsAdvertised then
    if srv.starttlsOk then ([.extensionQuery "STARTTLS", .starttls cfg], none)
    else ([.extensionQuery "STARTTLS", .starttls cfg], some .tlsUpgradeFailed)
  else ([.extensionQuery "STARTTLS"], none)

/-- The AUTH step of the session (smtp.go:92-98): only with a non-nil
credential is the extension queried, and only when also advertised is the
exchange performed, aborting on failure. -/
def authPhase (srv : Server) (cred : Option AuthCred) :
    List SmtpEvent × Option SendError :=
  match cred with
  | none => ([], none)
  | some a =>
      if srv.authAdvertised then
        if srv.authOk then ([.extensionQuery "AUTH", .auth a], none)
        else ([.extensionQuery "AUTH", .auth a], some .authFailed)
      else ([.extensionQuery "AUTH"], none)

/-- The RCPT loop of the session (smtp.go:104-108): one recipient
declaration per address, in order, aborting at the first rejection. -/
def rcptLoop (srv : Server) : List String → List SmtpEvent × Option SendError
  | [] => ([], none)
  | a :: rest =>
      if srv.rcptOk a then
        let r := rcptLoop srv rest
        (.rcpt a :: r.1, r.2)
      else ([.rcpt a], some (.recipientRejected a))

/-- The DATA phase of the session (smtp.go:110-125): open the data channel,
write the full rendered message, close the channel, then QUIT. -/
def dataPhase (srv : Server) (msg : Rendered) :
    List SmtpEvent × Option SendError :=
  if !srv.dataOk then ([.data], some .dataRejected)
  else if !srv.writeOk then ([.data, .write msg], some .writeFailed)
  else if !srv.closeDataOk then
    ([.data, .write msg, .closeData], some .closeFailed)
  else if !srv.quitOk then
    ([.data, .write msg, .closeData, .quit], some .quitFailed)
  else ([.data, .write msg, .closeData, .quit], none)

/-- The MAIL/RCPT/DATA tail of the session (smtp.go:100-125). -/
def envelopePhase (srv : Server) (sender : String) (rcpts : List String)
    (msg : Rendered) : List SmtpEvent × Option SendError :=
  if !srv.mailOk then ([.mail sender], some .senderRejected)
  else
    let r := rcptLoop srv rcpts
    match r.2 with
    | some e => (.mail sender :: r.1, some e)
    | none =>
        let d := dataPhase srv msg
        (.mail sender :: r.1 ++ d.1, d.2)

/-- The full SMTP session (smtp.go:80-126): dial, STARTTLS if advertised,
AUTH if credentialed and advertised, then the envelope and data transfer.
The deferred `c.Close()` closes the connection on every exit path after a
successful dial. -/
def session (srv : Server) (addr : String) (cfg : TLSConfig)
    (cred : Option AuthCred) (sender : String) (rcpts : List String)
    (msg : Rendered) : List SmtpEvent × Option SendError :=
  if !srv.dialOk then ([.dial addr], some .connectionError)
  else
    let t := tlsPhase srv cfg
    match t.2 with
    | some e => (.dial addr :: t.1 ++ [.closeConn], some e)
    | none =>
        let a := authPhase srv cred
        match a.2 with
        | some e => (.dial addr :: t.1 ++ a.1 ++ [.closeConn], some e)
        | none =>
            let ev := envelopePhase srv sender rcpts msg
            (.dial addr :: t.1 ++ a.1 ++ ev.1 ++ [.closeConn], ev.2)

/-- The flattened To+Cc+Bcc address list built by `SendMail`
(smtp.go:41-52): three successive append loops over `msg.To`, `msg.Cc`,
`msg.Bcc`. -/
def sendMailTo (msg : Message) : List String :=
  let tos := msg.To.foldl (fun acc a => acc ++ [a.Address]) []
  let tos := msg.Cc.foldl (fun acc a => acc ++ [a.Address]) tos
  msg.Bcc.foldl (fun acc a => acc ++ [a.Address]) tos

/-- The flattened To+Cc+Bcc address list built by `SendTLSMail`
(smtp.go:65-76): three successive append loops over `msg.To`, `msg.Cc`,
`msg.Bcc`. -/
def sendTLSMailTo (msg : Message) : List String :=
  let tos := msg.To.foldl (fun acc a => acc ++ [a.Address]) []
  let tos := msg.Cc.foldl (fun acc a => acc ++ [a.Address]) tos
  msg.Bcc.foldl (fun acc a => acc ++ [a.Address]) tos

/-- `msg.From.Address` (smtp.go:78); rendering succeeds only when From is
set, so the default is never reached after a successful render. -/
def fromAddress (m : Message) : String :=
  (m.From.map (·.Address)).getD ""

/-- Transcribed from `SendTLSMail` (smtp.go:59-126): render the message to
bytes first, returning the render error with no network action on failure;
then build the envelope and run the session with the supplied TLS
configuration. -/
def SendTLSMail (srv : Server) (addr : String) (a : Option AuthCred)
    (msg : Message) (cfg : TLSConfig) (altB mixedB now : String) :
    List SmtpEvent × Option SendError :=
  match render msg altB mixedB now with
  | .error e => ([], some (.renderError e))
  | .ok bytes =>
      session srv addr cfg a (fromAddress msg) (sendTLSMailTo msg) bytes

/-- Transcribed from `SendMail` (smtp.go:35-55): render the message to bytes
first, returning the render error with no network action on failure; then
build the envelope and delegate to the stdlib `smtp.SendMail` (external),
which performs the same command sequence as `SendTLSMail` but builds its own
default TLS configuration for the upgrade. -/
def SendMail (srv : Server) (addr : String) (a : Option AuthCred)
    (msg : Message) (altB mixedB now : String) :
    List SmtpEvent × Option SendError :=
  match render msg altB mixedB now with
  | .error e => ([], some (.renderError e))
  | .ok bytes =>
      session srv addr defaultTLSConfig a (fromAddress msg)
        (sendMailTo msg) bytes

/-- The `smtpSender` value (smtp.go:8-12): a bound server address, optional
credential and optional TLS configuration. -/
structure SmtpSender where
  addr : String
  auth : Option AuthCred
  tlsCfg : Option TLSConfig

/-- Transcribed from `smtpSender.SendMail` (smtp.go:14-19): dispatch to the
package-level `SendMail` when no TLS configuration is bound, else to
`SendTLSMail` with the bound configuration. -/
def SmtpSender.SendMail (s : SmtpSender) (srv : Server) (msg : Message)
    (altB mixedB now : String) : List SmtpEvent × Option SendError :=
  match s.tlsCfg with
  | none => Gophermail.SendMail srv s.addr s.auth msg altB mixedB now
  | some cfg => SendTLSMail srv s.addr s.auth msg cfg altB mixedB now

/-! ## Helper lemmas -/

theorem foldl_append_address (as : List Address) (init : List String) :
    as.foldl (fun acc a => acc ++ [a.Address]) init
      = init ++ as.map (·.Address) := by
  induction as generalizing init with
  | nil => simp
  | cons a rest ih => simp [List.foldl_cons, ih]

theorem sendMailTo_eq (msg : Message) :
    sendMailTo msg = msg.To.map (·.Address) ++ msg.Cc.map (·.Address)
      ++ msg.Bcc.map (·.Address) := by
  simp [sendMailTo, foldl_append_address]

theorem sendTLSMailTo_eq (msg : Message) :
    sendTLSMailTo msg = msg.To.map (·.Address) ++ msg.Cc.map (·.Address)
      ++ msg.Bcc.map (·.Address) := by
  simp [sendTLSMailTo, foldl_append_address]

theorem rcptLoop_all_ok (srv : Server) (l : List String)
    (h : ∀ r ∈ l, srv.rcptOk r = true) :
    rcptLoop srv l = (l.map SmtpEvent.rcpt, none) := by
  induction l with
  | nil => rfl
  | cons x xs ih =>
      have hx := h x (by simp)
      simp [rcptLoop, hx, ih (fun r hr => h r (by simp [hr]))]

theorem rcptLoop_first_fail (srv : Server) (pre : List String) (bad : String)
    (rest : List String) (hpre : ∀ r ∈ pre, srv.rcptOk r = true)
    (hbad : srv.rcptOk bad = false) :
    rcptLoop srv (pre ++ bad :: rest)
      = ((pre ++ [bad]).map SmtpEvent.rcpt,
         some (.recipientRejected bad)) := by
  induction pre with
  | nil => simp [rcptLoop, hbad]
  | cons x xs ih =>
      have hx := hpre x (by simp)
      simp [rcptLoop, hx, ih (fun r hr => hpre r (by simp [hr]))]

theorem tlsPhase_events (srv : Server) (cfg : TLSConfig) :
    (tlsPhase srv cfg).1 = [.extensionQuery "STARTTLS"] ∨
    (tlsPhase srv cfg).1 = [.extensionQuery "STARTTLS", .starttls cfg] := by
  cases h1 : srv.starttlsAdvertised <;> cases h2 : srv.starttlsOk <;>
    simp [tlsPhase, h1, h2]

theorem authPhase_events (srv : Server) (a : Option AuthCred) :
    (authPhase srv a).1 = [] ∨
    (authPhase srv a).1 = [.extensionQuery "AUTH"] ∨
    ∃ c, a = some c ∧ (authPhase srv a).1
      = [.extensionQuery "AUTH", .auth c] := by
  cases a with
  | none => simp [authPhase]
  | some c =>
      cases h1 : srv.authAdvertised <;> cases h2 : srv.authOk <;>
        simp [authPhase, h1, h2]

theorem dataPhase_events (srv : Server) (msg : Rendered) :
    (dataPhase srv msg).1 = [.data] ∨
    (dataPhase srv msg).1 = [.data, .write msg] ∨
    (dataPhase srv msg).1 = [.data, .write msg, .closeData] ∨
    (dataPhase srv msg).1 = [.data, .write msg, .closeData, .quit] := by
  cases h1 : srv.dataOk <;> cases h2 : srv.writeOk <;>
    cases h3 : srv.closeDataOk <;> cases h4 : srv.quitOk <;>
      simp [dataPhase, h1, h2, h3, h4]

theorem auth_not_mem_rcptLoop (srv : Server) (l : List String)
    (c : AuthCred) : SmtpEvent.auth c ∉ (rcptLoop srv l).1 := by
  induction l with
  | nil => simp [rcptLoop]
  | cons x xs ih =>
      cases hx : srv.rcptOk x <;> simp [rcptLoop, hx, ih]

theorem auth_not_mem_dataPhase (srv : Server) (msg : Rendered)
    (c : AuthCred) : SmtpEvent.auth c ∉ (dataPhase srv msg).1 := by
  rcases dataPhase_events srv msg with h | h | h | h <;> simp [h]

theorem auth_not_mem_envelopePhase (srv : Server) (sender : String)
    (rcpts : List String) (msg : Rendered) (c : AuthCred) :
    SmtpEvent.auth c ∉ (envelopePhase srv sender rcpts msg).1 := by
  cases hm : srv.mailOk
  · simp [envelopePhase, hm]
  · rcases h2 : (rcptLoop srv rcpts).2 with _ | e <;>
      simp [envelopePhase, hm, h2, auth_not_mem_rcptLoop,
        auth_not_mem_dataPhase]

theorem envelopePhase_mail_head (srv : Server) (sender : String)
    (rcpts : List String) (msg : Rendered) :
    ∃ rest, (envelopePhase srv sender rcpts msg).1
      = SmtpEvent.mail sender :: rest := by
  cases hm : srv.mailOk
  · exact ⟨[], by simp [envelopePhase, hm]⟩
  · rcases h2 : (rcptLoop srv rcpts).2 with _ | e
    · exact ⟨(rcptLoop srv rcpts).1 ++ (dataPhase srv msg).1,
        by simp [envelopePhase, hm, h2]⟩
    · exact ⟨(rcptLoop srv rcpts).1, by simp [envelopePhase, hm, h2]⟩

theorem envelopePhase_all_ok (srv : Server) (sender : String)
    (rcpts : List String) (msg : Rendered) (hmail : srv.mailOk = true)
    (hall : ∀ r ∈ rcpts, srv.rcptOk r = true) :
    envelopePhase srv sender rcpts msg
      = (.mail sender :: rcpts.map SmtpEvent.rcpt ++ (dataPhase srv msg).1,
         (dataPhase srv msg).2) := by
  simp [envelopePhase, hmail, rcptLoop_all_ok srv rcpts hall]

theorem envelopePhase_rcpt_fail (srv : Server) (sender : String)
    (msg : Rendered) (pre : List String) (bad : String) (rest : List String)
    (hmail : srv.mailOk = true) (hpre : ∀ r ∈ pre, srv.rcptOk r = true)
    (hbad : srv.rcptOk bad = false) :
    envelopePhase srv sender (pre ++ bad :: rest) msg
      = (.mail sender :: (pre ++ [bad]).map SmtpEvent.rcpt,
         some (.recipientRejected bad)) := by
  simp [envelopePhase, hmail,
    rcptLoop_first_fail srv pre bad rest hpre hbad]

theorem session_trace (srv : Server) (addr : String) (cfg : TLSConfig)
    (cred : Option AuthCred) (sender : String) (rcpts : List String)
    (msg : Rendered) (hdial : srv.dialOk = true)
    (htls : (tlsPhase srv cfg).2 = none)
    (hauth : (authPhase srv cred).2 = none) :
    session srv addr cfg cred sender rcpts msg
      = (.dial addr :: (tlsPhase srv cfg).1 ++ (authPhase srv cred).1
          ++ (envelopePhase srv sender rcpts msg).1 ++ [.closeConn],
         (envelopePhase srv sender rcpts msg).2) := by
  simp [session, hdial, htls, hauth]

theorem session_trace_tls_fail (srv : Server) (addr : String)
    (cfg : TLSConfig) (cred : Option AuthCred) (sender : String)
    (rcpts : List String) (msg : Rendered) (hdial : srv.dialOk = true)
    (e : SendError) (htls : (tlsPhase srv cfg).2 = some e) :
    session srv addr cfg cred sender rcpts msg
      = (.dial addr :: (tlsPhase srv cfg).1 ++ [.closeConn], some e) := by
  simp [session, hdial, htls]

theorem session_trace_auth_fail (srv : Server) (addr : String)
    (cfg : TLSConfig) (cred : Option AuthCred) (sender : String)
    (rcpts : List String) (msg : Rendered) (hdial : srv.dialOk = true)
    (htls : (tlsPhase srv cfg).2 = none) (e : SendError)
    (hauth : (authPhase srv cred).2 = some e) :
    session srv addr cfg cred sender rcpts msg
      = (.dial addr :: (tlsPhase srv cfg).1 ++ (authPhase srv cred).1
          ++ [.closeConn], some e) := by
  simp [session, hdial, htls, hauth]

/-! ## Claim theorems -/

/-- C10: `SendMail` and `SendTLSMail` derive the identical envelope (the
flattened To+Cc+Bcc address list in the same order, both equal to the maps
of To, Cc and Bcc concatenated), and `smtpSender.SendMail` behaves exactly
as the package-level `SendMail` when its TLS config is nil and exactly as
`SendTLSMail` with that config otherwise. -/
theorem smtpSender_dispatch_envelope (s : SmtpSender) (srv : Server)
    (msg : Message) (ab mb now : String) :
    sendMailTo msg = sendTLSMailTo msg ∧
    sendMailTo msg = msg.To.map (·.Address) ++ msg.Cc.map (·.Address)
      ++ msg.Bcc.map (·.Address) ∧
    (s.tlsCfg = none →
      s.SendMail srv msg ab mb now
        = Gophermail.SendMail srv s.addr s.auth msg ab mb now) ∧
    (∀ cfg, s.tlsCfg = some cfg →
      s.SendMail srv msg ab mb now
        = SendTLSMail srv s.addr s.auth msg cfg ab mb now) := by
  refine ⟨by rw [sendMailTo_eq, sendTLSMailTo_eq], sendMailTo_eq msg, ?_, ?_⟩
  · intro h
    simp [SmtpSender.SendMail, h]
  · intro cfg h
    simp [SmtpSender.SendMail, h]

/-- C10 witness. -/
theorem smtpSender_dispatch_envelope_witness :
    SmtpSender.SendMail ⟨"mx:25", none, some ⟨7⟩⟩ {} {} "a" "b" "now"
      = SendTLSMail {} "mx:25" none {} ⟨7⟩ "a" "b" "now" :=
  (smtpSender_dispatch_envelope ⟨"mx:25", none, some ⟨7⟩⟩ {} {} "a" "b"
    "now").2.2.2 ⟨7⟩ rfl

/-- C6: the full message is rendered to memory before any network I/O; when
rendering fails, both `SendTLSMail` and `SendMail` return the render error
with an empty protocol trace — no dial, no network side effect. -/
theorem send_render_error_no_network (srv : Server) (addr : String)
    (a : Option AuthCred) (msg : Message) (cfg : TLSConfig)
    (ab mb now : String) (e : RenderError)
    (hr : render msg ab mb now = .error e) :
    SendTLSMail srv addr a msg cfg ab mb now = ([], some (.renderError e)) ∧
    SendMail srv addr a msg ab mb now = ([], some (.renderError e)) := by
  constructor
  · simp [SendTLSMail, hr]
  · simp [SendMail, hr]

/-- C6 witness: a message with no sender fails to render and produces no
network trace. -/
theorem send_render_error_no_network_witness :
    SendTLSMail {} "mx:25" none {} ⟨0⟩ "a" "b" "now"
      = ([], some (.renderError .MissingSender)) :=
  (send_render_error_no_network {} "mx:25" none {} ⟨0⟩ "a" "b" "now"
    .MissingSender rfl).1

/-- C7: Bcc addresses never reach the rendered message — two messages
identical except for their Bcc lists render identically (same boundary and
date inputs), while their envelope recipient lists differ by exactly the
Bcc addresses appended after To and Cc. -/
theorem bcc_only_in_envelope (m : Message) (bcc bcc' : List Address)
    (ab mb now : String) :
    render { m with Bcc := bcc } ab mb now
      = render { m with Bcc := bcc' } ab mb now ∧
    sendTLSMailTo { m with Bcc := bcc }
      = sendTLSMailTo { m with Bcc := [] } ++ bcc.map (·.Address) ∧
    sendMailTo { m with Bcc := bcc }
      = sendMailTo { m with Bcc := [] } ++ bcc.map (·.Address) := by
  obtain ⟨f, tos, cc, b0, su, bo, hb, at0, hd⟩ := m
  refine ⟨rfl, ?_, ?_⟩
  · simp [sendTLSMailTo_eq]
  · simp [sendMailTo_eq]

/-- C1: with both Body and HTMLBody set and no attachments, the rendered
content is a top-level multipart/alternative container with exactly two
children, the text/plain part first (quoted-printable of Body) and the
text/html part second (base64 of HTMLBody). -/
theorem render_both_bodies_alternative (m : Message) (f : Address)
    (p h ab mb now : String)
    (hf : m.From = some f) (hp : m.Body = some p) (hh : m.HTMLBody = some h)
    (ha : m.Attachments = []) :
    (render m ab mb now).map Rendered.content
      = .ok (Part.multi "multipart/alternative" ab
          [Part.leaf "text/plain; charset=utf-8" [] "quoted-printable"
            (qpEncode p),
           Part.leaf "text/html; charset=utf-8" [] "base64"
            (base64Encode (strBytes h))]) := by
  simp [render, hf, topPart, ha, bodyPart, hp, hh, plainPart, htmlPart,
    Except.map]

/-- C1 witness. -/
theorem render_both_bodies_alternative_witness :
    (render { From := some ⟨"Doman Sender", "sender@domain.com"⟩,
              To := [⟨"First person", "to_1@domain.com"⟩],
              Body := some "hello", HTMLBody := some "<b>hi</b>" }
        "altb" "mixb" "01 Jan 26 00:00 UTC").map Rendered.content
      = .ok (Part.multi "multipart/alternative" "altb"
          [Part.leaf "text/plain; charset=utf-8" [] "quoted-printable"
            "hello",
           Part.leaf "text/html; charset=utf-8" [] "base64"
            "PGI+aGk8L2I+"]) := by
  rw [render_both_bodies_alternative
    { From := some ⟨"Doman Sender", "sender@domain.com"⟩,
      To := [⟨"First person", "to_1@domain.com"⟩],
      Body := some "hello", HTMLBody := some "<b>hi</b>" }
    ⟨"Doman Sender", "sender@domain.com"⟩ "hello" "<b>hi</b>"
    "altb" "mixb" "01 Jan 26 00:00 UTC" rfl rfl rfl rfl]
  rfl

/-- C2: with at least one attachment, the rendered content is a top-level
multipart/mixed container whose first child is the body part computed as
with no attachments, followed by one part per attachment in order, each
with Content-Disposition attachment carrying the filename and a base64
payload of the attachment's full byte stream. -/
theorem render_attachments_mixed (m : Message) (f : Address)
    (ab mb now : String)
    (hf : m.From = some f) (hne : m.Attachments ≠ []) :
    (render m ab mb now).map Rendered.content
      = .ok (Part.multi "multipart/mixed" mb
          (bodyPart { m with Attachments := [] } ab
            :: m.Attachments.map (fun a =>
              Part.leaf a.ContentType
                [("Content-Disposition",
                  "attachment; filename=\x22" ++ a.Name ++ "\x22")]
                "base64" (base64Encode a.Data)))) := by
  have hA : m.Attachments.isEmpty = false := by
    cases hx : m.Attachments with
    | nil => exact absurd hx hne
    | cons a as => simp [hx]
  simp [render, hf, topPart, hA, attachmentPart, Except.map]
  rfl

/-- C2 witness. -/
theorem render_attachments_mixed_witness :
    (render { From := some ⟨"Doman Sender", "sender@domain.com"⟩,
              Body := some "hi",
              Attachments := [⟨"test.txt", "text/plain", [76, 111]⟩] }
        "altb" "mixb" "01 Jan 26 00:00 UTC").map Rendered.content
      = .ok (Part.multi "multipart/mixed" "mixb"
          [Part.leaf "text/plain; charset=utf-8" [] "quoted-printable" "hi",
           Part.leaf "text/plain"
             [("Content-Disposition",
               "attachment; filename=\x22test.txt\x22")]
             "base64" "TG8="]) := by
  rw [render_attachments_mixed
    { From := some ⟨"Doman Sender", "sender@domain.com"⟩,
      Body := some "hi",
      Attachments := [⟨"test.txt", "text/plain", [76, 111]⟩] }
    ⟨"Doman Sender", "sender@domain.com"⟩ "altb" "mixb"
    "01 Jan 26 00:00 UTC" rfl (by decide)]
  rfl

/-- C3: with neither Body nor HTMLBody set, an empty text/plain part is
synthesized as the body part regardless of attachments, and with no
attachments the rendered output is that single well-formed empty text/plain
part. -/
theorem render_no_body_empty_plain (m : Message) (f : Address)
    (ab mb now : String) (hf : m.From = some f) (hp : m.Body = none)
    (hh : m.HTMLBody = none) :
    bodyPart m ab
      = Part.leaf "text/plain; charset=utf-8" [] "quoted-printable" "" ∧
    (m.Attachments = [] →
      (render m ab mb now).map Rendered.content
        = .ok (Part.leaf "text/plain; charset=utf-8" []
            "quoted-printable" "")) := by
  have h0 : qpEncode "" = "" := rfl
  have h1 : bodyPart m ab
      = Part.leaf "text/plain; charset=utf-8" [] "quoted-printable" "" := by
    simp [bodyPart, hp, hh, plainPart, h0]
  refine ⟨h1, fun ha => ?_⟩
  simp [render, hf, topPart, ha, h1, Except.map]

/-- C3 witness. -/
theorem render_no_body_empty_plain_witness :
    (render { From := some ⟨"Doman Sender", "sender@domain.com"⟩ }
        "altb" "mixb" "01 Jan 26 00:00 UTC").map Rendered.content
      = .ok (Part.leaf "text/plain; charset=utf-8" []
          "quoted-printable" "") :=
  (render_no_body_empty_plain
    { From := some ⟨"Doman Sender", "sender@domain.com"⟩ }
    ⟨"Doman Sender", "sender@domain.com"⟩ "altb" "mixb"
    "01 Jan 26 00:00 UTC" rfl rfl rfl).2 rfl

/-- C9: Date resolution — when `Headers` carries a Date entry with the
single value `d`, the rendered message has exactly the one Date header `d`
emitted verbatim; when `Headers` carries no Date entry, exactly one Date
header is emitted, synthesized from the render call's current time. -/
theorem render_date_resolution (m : Message) (f : Address)
    (ab mb now d : String) (hf : m.From = some f) :
    (lookupHeader m.Headers "Date" = some [d] →
      (render m ab mb now).map dateHeaders = .ok [d]) ∧
    (lookupHeader m.Headers "Date" = none →
      (render m ab mb now).map dateHeaders = .ok [now]) := by
  constructor
  all_goals
    intro hd
    simp [render, hf, Except.map, dateHeaders, topHeaders, dateValues, hd,
      List.filter_append,
      apply_ite (List.filter (fun x : String × String => decide (x.1 = "Date")))]
    intro a b x xs hmem hx v hv hxa hvb
    subst hxa
    exact hx

/-- C9 witness: a supplied Date is emitted verbatim as the only Date
header, and an absent one is synthesized from the render-call time. -/
theorem render_date_resolution_witness :
    (render { From := some ⟨"Doman Sender", "sender@domain.com"⟩,
              Headers := [("Date", ["10 Oct 25 12:00 UTC"])] }
        "altb" "mixb" "11 Oct 25 09:00 UTC").map dateHeaders
      = .ok ["10 Oct 25 12:00 UTC"] ∧
    (render { From := some ⟨"Doman Sender", "sender@domain.com"⟩ }
        "altb" "mixb" "11 Oct 25 09:00 UTC").map dateHeaders
      = .ok ["11 Oct 25 09:00 UTC"] :=
  ⟨(render_date_resolution
      { From := some ⟨"Doman Sender", "sender@domain.com"⟩,
        Headers := [("Date", ["10 Oct 25 12:00 UTC"])] }
      ⟨"Doman Sender", "sender@domain.com"⟩ "altb" "mixb"
      "11 Oct 25 09:00 UTC" "10 Oct 25 12:00 UTC" rfl).1 rfl,
   (render_date_resolution
      { From := some ⟨"Doman Sender", "sender@domain.com"⟩ }
      ⟨"Doman Sender", "sender@domain.com"⟩ "altb" "mixb"
      "11 Oct 25 09:00 UTC" "unused" rfl).2 rfl⟩

/-- C4: the transaction issues one recipient declaration per address of the
flattened To+Cc+Bcc list, in list order, before DATA; when every recipient
is accepted the trace holds exactly those RCPT events followed by the data
phase, and when recipient `bad` is the first rejected one the transaction
stops right there, DATA is never attempted, and the error is the rejection
of that recipient. -/
theorem sendTLSMail_rcpt_sequence (srv : Server) (addr : String)
    (a : Option AuthCred) (msg : Message) (cfg : TLSConfig)
    (ab mb now : String) (rnd : Rendered)
    (hr : render msg ab mb now = .ok rnd)
    (hdial : srv.dialOk = true)
    (htls : (tlsPhase srv cfg).2 = none)
    (hauth : (authPhase srv a).2 = none)
    (hmail : srv.mailOk = true) :
    sendTLSMailTo msg
      = msg.To.map (·.Address) ++ msg.Cc.map (·.Address)
        ++ msg.Bcc.map (·.Address) ∧
    ((∀ r ∈ sendTLSMailTo msg, srv.rcptOk r = true) →
      SendTLSMail srv addr a msg cfg ab mb now
        = (.dial addr :: (tlsPhase srv cfg).1 ++ (authPhase srv a).1
            ++ (.mail (fromAddress msg)
                :: (sendTLSMailTo msg).map SmtpEvent.rcpt
                ++ (dataPhase srv rnd).1)
            ++ [.closeConn],
           (dataPhase srv rnd).2)) ∧
    (∀ pre bad rest, sendTLSMailTo msg = pre ++ bad :: rest →
      (∀ r ∈ pre, srv.rcptOk r = true) → srv.rcptOk bad = false →
      SendTLSMail srv addr a msg cfg ab mb now
        = (.dial addr :: (tlsPhase srv cfg).1 ++ (authPhase srv a).1
            ++ (.mail (fromAddress msg)
                :: (pre ++ [bad]).map SmtpEvent.rcpt)
            ++ [.closeConn],
           some (.recipientRejected bad)) ∧
      SmtpEvent.data ∉ (SendTLSMail srv addr a msg cfg ab mb now).1) := by
  have hsess := session_trace srv addr cfg a (fromAddress msg)
    (sendTLSMailTo msg) rnd hdial htls hauth
  refine ⟨sendTLSMailTo_eq msg, ?_, ?_⟩
  · intro hall
    have henv := envelopePhase_all_ok srv (fromAddress msg)
      (sendTLSMailTo msg) rnd hmail hall
    simp [SendTLSMail, hr, hsess, henv]
  · intro pre bad rest heq hpre hbad
    have henv := envelopePhase_rcpt_fail srv (fromAddress msg) rnd
      pre bad rest hmail hpre hbad
    have htr : SendTLSMail srv addr a msg cfg ab mb now
        = (.dial addr :: (tlsPhase srv cfg).1 ++ (authPhase srv a).1
            ++ (.mail (fromAddress msg)
                :: (pre ++ [bad]).map SmtpEvent.rcpt)
            ++ [.closeConn],
           some (.recipientRejected bad)) := by
      rw [heq] at hsess
      rw [show SendTLSMail srv addr a msg cfg ab mb now
          = session srv addr cfg a (fromAddress msg) (sendTLSMailTo msg) rnd
        from by simp [SendTLSMail, hr]]
      rw [heq, hsess, henv]
    refine ⟨htr, ?_⟩
    rw [htr]
    rcases tlsPhase_events srv cfg with ht | ht <;>
      rcases authPhase_events srv a with hA | hA | ⟨c, _, hA⟩ <;>
        simp [ht, hA]

/-- C4 witness: with recipients `a@x.com` then `bad@x.com` and a server
rejecting the latter, the trace stops after the second RCPT with a
recipient-rejected error and no DATA. -/
theorem sendTLSMail_rcpt_sequence_witness :
    SendTLSMail { rcptOk := fun r => !(r == "bad@x.com") } "mx:25" none
        { From := some ⟨"S", "s@d.com"⟩, To := [⟨"A", "a@x.com"⟩],
          Bcc := [⟨"B", "bad@x.com"⟩] } ⟨7⟩ "ab" "mb" "now"
      = (.dial "mx:25"
          :: (tlsPhase { rcptOk := fun r => !(r == "bad@x.com") } ⟨7⟩).1
          ++ (authPhase { rcptOk := fun r => !(r == "bad@x.com") } none).1
          ++ (.mail "s@d.com"
              :: (["a@x.com"] ++ ["bad@x.com"]).map SmtpEvent.rcpt)
          ++ [.closeConn],
         some (.recipientRejected "bad@x.com")) ∧
    SmtpEvent.data ∉
      (SendTLSMail { rcptOk := fun r => !(r == "bad@x.com") } "mx:25" none
        { From := some ⟨"S", "s@d.com"⟩, To := [⟨"A", "a@x.com"⟩],
          Bcc := [⟨"B", "bad@x.com"⟩] } ⟨7⟩ "ab" "mb" "now").1 :=
  (sendTLSMail_rcpt_sequence { rcptOk := fun r => !(r == "bad@x.com") }
    "mx:25" none
    { From := some ⟨"S", "s@d.com"⟩, To := [⟨"A", "a@x.com"⟩],
      Bcc := [⟨"B", "bad@x.com"⟩] } ⟨7⟩ "ab" "mb" "now"
    ⟨[("From", "S <s@d.com>"), ("To", "A <a@x.com>"), ("Subject", ""),
      ("MIME-Version", "1.0"), ("Date", "now"),
      ("Content-Type", "text/plain; charset=utf-8")],
     Part.leaf "text/plain; charset=utf-8" [] "quoted-printable" ""⟩
    rfl rfl rfl rfl rfl).2.2 ["a@x.com"] "bad@x.com" [] rfl
    (by decide) rfl

/-- C5: when the server advertises STARTTLS the upgrade is performed with
the supplied TLS policy, and when that upgrade fails the whole send stops
with the TLS-upgrade error — the trace shows no protocol step after the
failed upgrade, so the session never proceeds in plaintext. -/
theorem sendTLSMail_starttls_policy (srv : Server) (addr : String)
    (a : Option AuthCred) (msg : Message) (cfg : TLSConfig)
    (ab mb now : String) (rnd : Rendered)
    (hr : render msg ab mb now = .ok rnd)
    (hdial : srv.dialOk = true)
    (hadv : srv.starttlsAdvertised = true) :
    SmtpEvent.starttls cfg ∈ (SendTLSMail srv addr a msg cfg ab mb now).1 ∧
    (srv.starttlsOk = false →
      SendTLSMail srv addr a msg cfg ab mb now
        = ([.dial addr, .extensionQuery "STARTTLS", .starttls cfg,
            .closeConn], some .tlsUpgradeFailed)) := by
  have htl : (tlsPhase srv cfg).1
      = [.extensionQuery "STARTTLS", .starttls cfg] := by
    cases hok : srv.starttlsOk <;> simp [tlsPhase, hadv, hok]
  have hfail : srv.starttlsOk = false →
      SendTLSMail srv addr a msg cfg ab mb now
        = ([.dial addr, .extensionQuery "STARTTLS", .starttls cfg,
            .closeConn], some .tlsUpgradeFailed) := by
    intro hok
    have htls2 : (tlsPhase srv cfg).2 = some .tlsUpgradeFailed := by
      simp [tlsPhase, hadv, hok]
    have := session_trace_tls_fail srv addr cfg a (fromAddress msg)
      (sendTLSMailTo msg) rnd hdial .tlsUpgradeFailed htls2
    simp [SendTLSMail, hr, this, htl]
  refine ⟨?_, hfail⟩
  cases hok : srv.starttlsOk
  · simp [hfail hok]
  · have htls2 : (tlsPhase srv cfg).2 = none := by
      simp [tlsPhase, hadv, hok]
    rcases h2 : (authPhase srv a).2 with _ | e
    · have := session_trace srv addr cfg a (fromAddress msg)
        (sendTLSMailTo msg) rnd hdial htls2 h2
      simp [SendTLSMail, hr, this, htl]
    · have := session_trace_auth_fail srv addr cfg a (fromAddress msg)
        (sendTLSMailTo msg) rnd hdial htls2 e h2
      simp [SendTLSMail, hr, this, htl]

/-- C5 witness: a server advertising STARTTLS whose upgrade fails produces
exactly the dial, capability query, upgrade attempt and connection close,
with the TLS-upgrade error. -/
theorem sendTLSMail_starttls_policy_witness :
    SendTLSMail { starttlsAdvertised := true, starttlsOk := false } "mx:25"
        none { From := some ⟨"S", "s@d.com"⟩ } ⟨7⟩ "ab" "mb" "now"
      = ([.dial "mx:25", .extensionQuery "STARTTLS", .starttls ⟨7⟩,
          .closeConn], some .tlsUpgradeFailed) :=
  (sendTLSMail_starttls_policy
    { starttlsAdvertised := true, starttlsOk := false } "mx:25" none
    { From := some ⟨"S", "s@d.com"⟩ } ⟨7⟩ "ab" "mb" "now"
    ⟨[("From", "S <s@d.com>"), ("To", ""), ("Subject", ""),
      ("MIME-Version", "1.0"), ("Date", "now"),
      ("Content-Type", "text/plain; charset=utf-8")],
     Part.leaf "text/plain; charset=utf-8" [] "quoted-printable" ""⟩
    rfl rfl rfl).2 rfl

/-- C8: an authentication exchange happens iff a credential was supplied
and the server advertises AUTH; a failing exchange ends the send with the
auth error right after the exchange; with no credential, or with AUTH not
advertised, no exchange happens and the session proceeds to the envelope
(the MAIL step appears in the trace). -/
theorem sendTLSMail_auth_exchange (srv : Server) (addr : String)
    (a : Option AuthCred) (msg : Message) (cfg : TLSConfig)
    (ab mb now : String) (rnd : Rendered)
    (hr : render msg ab mb now = .ok rnd)
    (hdial : srv.dialOk = true)
    (htls : (tlsPhase srv cfg).2 = none) :
    ((∃ c, a = some c ∧ srv.authAdvertised = true)
      ↔ ∃ c, SmtpEvent.auth c
          ∈ (SendTLSMail srv addr a msg cfg ab mb now).1) ∧
    (∀ c, a = some c → srv.authAdvertised = true → srv.authOk = false →
      SendTLSMail srv addr a msg cfg ab mb now
        = (.dial addr :: (tlsPhase srv cfg).1
            ++ [.extensionQuery "AUTH", .auth c, .closeConn],
           some .authFailed)) ∧
    ((a = none ∨ srv.authAdvertised = false) →
      (∀ c, SmtpEvent.auth c
          ∉ (SendTLSMail srv addr a msg cfg ab mb now).1) ∧
      SmtpEvent.mail (fromAddress msg)
        ∈ (SendTLSMail srv addr a msg cfg ab mb now).1) := by
  have hfail : ∀ c, a = some c → srv.authAdvertised = true →
      srv.authOk = false →
      SendTLSMail srv addr a msg cfg ab mb now
        = (.dial addr :: (tlsPhase srv cfg).1
            ++ [.extensionQuery "AUTH", .auth c, .closeConn],
           some .authFailed) := by
    intro c hc hadv hok
    have hA : authPhase srv a
        = ([.extensionQuery "AUTH", .auth c], some .authFailed) := by
      simp [authPhase, hc, hadv, hok]
    have := session_trace_auth_fail srv addr cfg a (fromAddress msg)
      (sendTLSMailTo msg) rnd hdial htls .authFailed (by simp [hA])
    simp [SendTLSMail, hr, this, hA]
  have hnone : (a = none ∨ srv.authAdvertised = false) →
      (∀ c, SmtpEvent.auth c
          ∉ (SendTLSMail srv addr a msg cfg ab mb now).1) ∧
      SmtpEvent.mail (fromAddress msg)
        ∈ (SendTLSMail srv addr a msg cfg ab mb now).1 := by
    intro h
    have hA1 : (authPhase srv a).1 = [] ∨
        (authPhase srv a).1 = [.extensionQuery "AUTH"] := by
      rcases h with h | h
      · left; simp [authPhase, h]
      · cases a with
        | none => left; simp [authPhase]
        | some c => right; simp [authPhase, h]
    have hA2 : (authPhase srv a).2 = none := by
      rcases h with h | h
      · simp [authPhase, h]
      · cases a with
        | none => simp [authPhase]
        | some c => simp [authPhase, h]
    have hsess := session_trace srv addr cfg a (fromAddress msg)
      (sendTLSMailTo msg) rnd hdial htls hA2
    obtain ⟨restE, hE⟩ := envelopePhase_mail_head srv (fromAddress msg)
      (sendTLSMailTo msg) rnd
    constructor
    · intro c
      rcases tlsPhase_events srv cfg with ht | ht <;>
        rcases hA1 with hA | hA <;>
          simp [SendTLSMail, hr, hsess, ht, hA,
            auth_not_mem_envelopePhase]
    · simp [SendTLSMail, hr, hsess, hE]
  refine ⟨⟨?_, ?_⟩, hfail, hnone⟩
  · rintro ⟨c, hc, hadv⟩
    cases hok : srv.authOk
    · exact ⟨c, by simp [hfail c hc hadv hok]⟩
    · have hA : authPhase srv a
          = ([.extensionQuery "AUTH", .auth c], none) := by
        simp [authPhase, hc, hadv, hok]
      have hsess := session_trace srv addr cfg a (fromAddress msg)
        (sendTLSMailTo msg) rnd hdial htls (by simp [hA])
      exact ⟨c, by simp [SendTLSMail, hr, hsess, hA]⟩
  · rintro ⟨c, hc⟩
    cases ha : a with
    | none => exact absurd hc ((hnone (Or.inl ha)).1 c)
    | some c' =>
        cases hadv : srv.authAdvertised with
        | false => exact absurd hc ((hnone (Or.inr hadv)).1 c)
        | true => exact ⟨c', rfl, rfl⟩

/-- C8 witness: with a credential supplied, AUTH advertised and the
exchange failing, the send stops right after the exchange with the auth
error. -/
theorem sendTLSMail_auth_exchange_witness :
    SendTLSMail { authAdvertised := true, authOk := false } "mx:25"
        (some ⟨3⟩) { From := some ⟨"S", "s@d.com"⟩ } ⟨7⟩ "ab" "mb" "now"
      = (.dial "mx:25"
          :: (tlsPhase { authAdvertised := true, authOk := false } ⟨7⟩).1
          ++ [.extensionQuery "AUTH", .auth ⟨3⟩, .closeConn],
         some .authFailed) :=
  (sendTLSMail_auth_exchange
    { authAdvertised := true, authOk := false } "mx:25" (some ⟨3⟩)
    { From := some ⟨"S", "s@d.com"⟩ } ⟨7⟩ "ab" "mb" "now"
    ⟨[("From", "S <s@d.com>"), ("To", ""), ("Subject", ""),
      ("MIME-Version", "1.0"), ("Date", "now"),
      ("Content-Type", "text/plain; charset=utf-8")],
     Part.leaf "text/plain; charset=utf-8" [] "quoted-printable" ""⟩
    rfl rfl rfl).2.1 ⟨3⟩ rfl rfl rfl

end Gophermail
